import Mathlib

/-!
Verification of the query dispatch registry of `listenbrainz_spark/query_map.py`.

The source file builds a module-level Python dict literal `functions` binding
query-identifier strings to handler function references, and exposes
`get_query_handler(query)` which returns `functions[query]` (raising `KeyError(query)`
when the key is absent).

Embedding choices:
* Each handler function reference that appears as a value of the dict literal is one
  constructor of the inductive type `Handler`, named after its Python module path and
  function name.  Distinct source references are distinct constructors.
* The dict literal is embedded as the pair list `functionsList` in source order, and
  `buildDict` folds it with Python dict-literal semantics (a repeated key keeps the
  position of its first occurrence and the value of its last occurrence).
* `get_query_handler` returns `Except String Handler`: `Except.error query` stands for
  the Python `KeyError(query)` raised by `functions[query]` on a missing key.
* The module-global dict is modelled by explicit state passing where a claim speaks
  about mutation: `get_query_handler_st` threads the registry value through the call.
-/

set_option autoImplicit false

deriving instance DecidableEq for Except

namespace QueryMap

/-- One constructor per distinct handler function reference appearing as a value of the
`functions` dict literal, named `<python module path>_<function name>`. -/
inductive Handler where
  | stats_user_entity_get_entity_stats
  | stats_user_listening_activity_get_listening_activity
  | stats_user_daily_activity_get_daily_activity
  | stats_sitewide_entity_get_entity_stats
  | stats_sitewide_listening_activity_get_listening_activity
  | request_consumer_jobs_import_dump_import_newest_full_dump_handler
  | request_consumer_jobs_import_dump_import_full_dump_by_id_handler
  | request_consumer_jobs_import_dump_import_newest_incremental_dump_handler
  | request_consumer_jobs_import_dump_import_incremental_dump_by_id_handler
  | missing_mb_data_missing_mb_data_main
  | recommendations_recording_create_dataframes_main
  | recommendations_recording_train_models_main
  | recommendations_recording_candidate_sets_main
  | recommendations_recording_recommend_main
  | recommendations_recording_discovery_get_recording_discovery
  | request_consumer_jobs_import_dump_import_artist_relation_to_hdfs
  | request_consumer_jobs_import_dump_import_release_json_dump_to_hdfs
  | similarity_user_main
  | similarity_recording_main
  | similarity_artist_main
  | year_in_music_new_releases_of_top_artists_get_new_releases_of_top_artists
  | year_in_music_tracks_of_the_year_calculate_tracks_of_the_year
  | year_in_music_most_listened_year_get_most_listened_year
  | year_in_music_day_of_week_get_day_of_week
  | year_in_music_similar_users_get_similar_users
  | year_in_music_top_stats_calculate_top_entity_stats
  | year_in_music_listens_per_day_calculate_listens_per_day
  | year_in_music_listen_count_get_listen_count
  | year_in_music_new_artists_discovered_get_new_artists_discovered_count
  | year_in_music_listening_time_get_listening_time
  | year_in_music_artist_map_get_artist_map_stats
  | postgres_release_create_release_metadata_cache
  | fresh_releases_fresh_releases_main
  deriving DecidableEq

/-- The pairs of the `functions` dict literal of `query_map.py`, in source order. -/
def functionsList : List (String × Handler) := [
  ("stats.user.entity", Handler.stats_user_entity_get_entity_stats),
  ("stats.user.listening_activity", Handler.stats_user_listening_activity_get_listening_activity),
  ("stats.user.daily_activity", Handler.stats_user_daily_activity_get_daily_activity),
  ("stats.sitewide.entity", Handler.stats_sitewide_entity_get_entity_stats),
  ("stats.sitewide.listening_activity", Handler.stats_sitewide_listening_activity_get_listening_activity),
  ("import.dump.full_newest", Handler.request_consumer_jobs_import_dump_import_newest_full_dump_handler),
  ("import.dump.full_id", Handler.request_consumer_jobs_import_dump_import_full_dump_by_id_handler),
  ("import.dump.incremental_newest", Handler.request_consumer_jobs_import_dump_import_newest_incremental_dump_handler),
  ("import.dump.incremental_id", Handler.request_consumer_jobs_import_dump_import_incremental_dump_by_id_handler),
  ("cf.missing_mb_data", Handler.missing_mb_data_missing_mb_data_main),
  ("cf.recommendations.recording.create_dataframes", Handler.recommendations_recording_create_dataframes_main),
  ("cf.recommendations.recording.train_model", Handler.recommendations_recording_train_models_main),
  ("cf.recommendations.recording.candidate_sets", Handler.recommendations_recording_candidate_sets_main),
  ("cf.recommendations.recording.recommendations", Handler.recommendations_recording_recommend_main),
  ("cf.recommendations.recording.discovery", Handler.recommendations_recording_discovery_get_recording_discovery),
  ("import.artist_relation", Handler.request_consumer_jobs_import_dump_import_artist_relation_to_hdfs),
  ("import.musicbrainz_release_dump", Handler.request_consumer_jobs_import_dump_import_release_json_dump_to_hdfs),
  ("similarity.similar_users", Handler.similarity_user_main),
  ("similarity.recording", Handler.similarity_recording_main),
  ("similarity.artist", Handler.similarity_artist_main),
  ("year_in_music.new_releases_of_top_artists", Handler.year_in_music_new_releases_of_top_artists_get_new_releases_of_top_artists),
  ("year_in_music.tracks_of_the_year", Handler.year_in_music_tracks_of_the_year_calculate_tracks_of_the_year),
  ("year_in_music.most_listened_year", Handler.year_in_music_most_listened_year_get_most_listened_year),
  ("year_in_music.day_of_week", Handler.year_in_music_day_of_week_get_day_of_week),
  ("year_in_music.similar_users", Handler.year_in_music_similar_users_get_similar_users),
  ("year_in_music.top_stats", Handler.year_in_music_top_stats_calculate_top_entity_stats),
  ("year_in_music.listens_per_day", Handler.year_in_music_listens_per_day_calculate_listens_per_day),
  ("year_in_music.listen_count", Handler.year_in_music_listen_count_get_listen_count),
  ("year_in_music.new_artists_discovered_count", Handler.year_in_music_new_artists_discovered_get_new_artists_discovered_count),
  ("year_in_music.listening_time", Handler.year_in_music_listening_time_get_listening_time),
  ("year_in_music.artist_map", Handler.year_in_music_artist_map_get_artist_map_stats),
  ("import.pg_metadata_tables", Handler.postgres_release_create_release_metadata_cache),
  ("releases.fresh", Handler.fresh_releases_fresh_releases_main)]

/-- Python dict insertion: a repeated key keeps its original position and takes the new
value; a fresh key is appended at the end. -/
def dictInsert : List (String × Handler) → String → Handler → List (String × Handler)
  | [], k, v => [(k, v)]
  | (k', v') :: rest, k, v =>
    if k' = k then (k, v) :: rest else (k', v') :: dictInsert rest k v

/-- Evaluation of a Python dict literal: fold the written pairs left to right into an
initially empty dict. -/
def buildDict (pairs : List (String × Handler)) : List (String × Handler) :=
  pairs.foldl (fun d p => dictInsert d p.1 p.2) []

/-- The module-level `functions` dict of `query_map.py`. -/
def functions : List (String × Handler) := buildDict functionsList

/-- Python dict subscript lookup `d[q]` result, as an `Option`. -/
def lookupKey : List (String × Handler) → String → Option Handler
  | [], _ => none
  | (k, v) :: rest, q => if k = q then some v else lookupKey rest q

/-- `get_query_handler(query)` of `query_map.py`: `return functions[query]`.
`Except.error query` models the `KeyError(query)` Python raises on a missing key. -/
def get_query_handler (query : String) : Except String Handler :=
  match lookupKey functions query with
  | some h => Except.ok h
  | none => Except.error query

/-! ## State-passing view of the module-global registry

In the Python source `functions` is a module global read by `get_query_handler`.
To let claims about mutation (or its absence) be stated, the same code is also
embedded in state-passing style: the registry value goes in, the result and the
registry value the module holds afterwards come out. -/

/-- The registry value held by the module: an insertion-ordered string-keyed dict. -/
def Registry : Type := List (String × Handler)

/-- State-passing embedding of `get_query_handler`: the body `return functions[query]`
only reads the dict, so the registry component of the result is the input registry. -/
def get_query_handler_st (reg : Registry) (query : String) :
    Except String Handler × Registry :=
  ((match lookupKey reg query with
    | some h => Except.ok h
    | none => Except.error query), reg)

/-! ## Dispatcher

Modelled from the spec: the repository's request consumer (the `invoke` side of the
dispatch boundary) is not under `src/`; only `get_query_handler` is.  Following the
spec, `invoke(identifier, params)` resolves the handler through the registry, calls it
with the parameter payload, reports `UnknownQuery` when resolution fails, and tags a
handler failure as `HandlerExecutionError` carrying the original cause.  Handler
execution itself is opaque to the dispatcher and is therefore a parameter `run`; the
parameter payload, result and handler-failure types are opaque type parameters. -/

/-- Modelled from the spec: the dispatch error taxonomy visible to the request
consumer.  `unknownQuery` carries the offending identifier; `handlerExecutionError`
carries the identifier and the handler's original failure, untouched. -/
inductive DispatchError (E : Type) where
  | unknownQuery (identifier : String)
  | handlerExecutionError (identifier : String) (cause : E)
  deriving DecidableEq

/-- Modelled from the spec: `invoke(identifier, params)` with an instrumented result:
the second component records, in order, every handler the dispatcher called.  `run`
stands for opaque handler execution. -/
def invokeTrace {P E R : Type} (run : Handler → P → Except E R) (query : String)
    (params : P) : Except (DispatchError E) R × List Handler :=
  match get_query_handler query with
  | Except.error ident => (Except.error (DispatchError.unknownQuery ident), [])
  | Except.ok h =>
    match run h params with
    | Except.ok r => (Except.ok r, [h])
    | Except.error e => (Except.error (DispatchError.handlerExecutionError query e), [h])

/-- Modelled from the spec: `invoke(identifier, params)` as seen by the request
consumer (the result component of `invokeTrace`). -/
def invoke {P E R : Type} (run : Handler → P → Except E R) (query : String)
    (params : P) : Except (DispatchError E) R :=
  (invokeTrace run query params).1

/-- Modelled from the spec: `invoke` in state-passing style over an explicit registry
value, for claims about the registry not being written by dispatch. -/
def invokeSt {P E R : Type} (reg : Registry) (run : Handler → P → Except E R)
    (query : String) (params : P) : Except (DispatchError E) R × Registry :=
  match get_query_handler_st reg query with
  | (Except.error ident, reg') => (Except.error (DispatchError.unknownQuery ident), reg')
  | (Except.ok h, reg') =>
    match run h params with
    | Except.ok r => (Except.ok r, reg')
    | Except.error e => (Except.error (DispatchError.handlerExecutionError query e), reg')

/-! ## Identifier shape -/

/-- A character allowed inside an identifier segment: a lowercase letter or an
underscore (the registered identifiers use only these). -/
def segChar (c : Char) : Bool := c.isLower || c = '_'

/-- Scanner for dot-separated identifiers.  `started` records whether the current
segment already has at least one character; a dot closes a segment (which must be
non-empty) and opens a new one; the scan accepts only if the final segment is
non-empty.  The empty string is rejected. -/
def segScan (started : Bool) : List Char → Bool
  | [] => started
  | c :: cs =>
    if c = '.' then started && segScan false cs
    else segChar c && segScan true cs

/-- An identifier is non-empty and consists of dot-separated non-empty lowercase
segments. -/
def dotSeparatedLower (s : String) : Bool := segScan false s.data

/-- The first dot-separated segment of an identifier. -/
def firstSeg (s : String) : String := String.mk (s.data.takeWhile (fun c => c ≠ '.'))

/-- The subsystem prefixes of the identifier namespace. -/
def subsystemPrefixes : List String :=
  ["stats", "cf", "similarity", "import", "year_in_music", "releases"]

/-! ## Helper lemmas -/

theorem lookupKey_eq_none (d : List (String × Handler)) (q : String) :
    lookupKey d q = none ↔ q ∉ d.map Prod.fst := by
  induction d with
  | nil => simp [lookupKey]
  | cons p rest ih =>
    obtain ⟨k, v⟩ := p
    constructor
    · intro hnone hmem
      by_cases hk : k = q
      · simp [lookupKey, hk] at hnone
      · have hmem' : q = k ∨ ∃ x, (q, x) ∈ rest := by simpa using hmem
        rcases hmem' with h1 | ⟨x, h2⟩
        · exact hk h1.symm
        · have hr : lookupKey rest q = none := by simpa [lookupKey, hk] using hnone
          exact (ih.mp hr) (List.mem_map.mpr ⟨(q, x), h2, rfl⟩)
    · intro hnot
      have hk : k ≠ q := by
        intro hkq
        exact hnot (by rw [List.map_cons, hkq]; exact List.mem_cons_self _ _)
      have hr : q ∉ rest.map Prod.fst := by
        intro hmem
        exact hnot (by rw [List.map_cons]; exact List.mem_cons_of_mem _ hmem)
      simp [lookupKey, hk, ih.mpr hr]

theorem lookupKey_mem (d : List (String × Handler)) (q : String) (h : Handler)
    (hl : lookupKey d q = some h) : (q, h) ∈ d := by
  induction d with
  | nil => simp [lookupKey] at hl
  | cons p rest ih =>
    obtain ⟨k, v⟩ := p
    by_cases hk : k = q
    · subst hk
      simp [lookupKey] at hl
      subst hl
      exact List.mem_cons_self _ _
    · simp [lookupKey, hk] at hl
      exact List.mem_cons_of_mem _ (ih hl)

theorem lookupKey_of_mem_nodup (d : List (String × Handler)) (q : String) (h : Handler)
    (hnd : (d.map Prod.fst).Nodup) (hm : (q, h) ∈ d) : lookupKey d q = some h := by
  induction d with
  | nil => simp at hm
  | cons p rest ih =>
    obtain ⟨k, v⟩ := p
    simp only [List.map_cons, List.nodup_cons] at hnd
    rcases List.mem_cons.mp hm with hhead | htail
    · cases hhead
      simp [lookupKey]
    · have hkq : k ≠ q := by
        intro hkq
        exact hnd.1 (hkq ▸ (List.mem_map.mpr ⟨(q, h), htail, rfl⟩))
      simp [lookupKey, hkq, ih hnd.2 htail]

theorem functions_eq_literal : functions = functionsList := by decide

theorem functions_keys_nodup : (functions.map Prod.fst).Nodup := by decide

theorem get_query_handler_of_mem (q : String) (h : Handler)
    (hm : (q, h) ∈ functions) : get_query_handler q = Except.ok h := by
  have hl := lookupKey_of_mem_nodup functions q h functions_keys_nodup hm
  simp [get_query_handler, hl]

theorem get_query_handler_of_not_mem (q : String)
    (hq : q ∉ functions.map Prod.fst) : get_query_handler q = Except.error q := by
  have hl := (lookupKey_eq_none functions q).mpr hq
  simp [get_query_handler, hl]

theorem invokeSt_registry_unchanged {P E R : Type} (reg : Registry)
    (run : Handler → P → Except E R) (q : String) (p : P) :
    (invokeSt reg run q p).2 = reg := by
  unfold invokeSt get_query_handler_st
  cases hl : lookupKey reg q with
  | none => simp
  | some h => cases hr : run h p <;> simp [hr]

/-! ## Claim theorems -/

/-- Claim C1: for every identifier that is a key of the registry dict, `get_query_handler`
returns exactly the handler bound to that identifier, and the lookup is a pure read that
leaves the registry unchanged. -/
theorem c1_lookup_returns_bound_handler (q : String) (h : Handler)
    (hm : (q, h) ∈ functions) :
    get_query_handler q = Except.ok h ∧ (get_query_handler_st functions q).2 = functions :=
  ⟨get_query_handler_of_mem q h hm, rfl⟩

/-- Claim C1 witness: the first binding of the dict literal, looked up concretely. -/
theorem c1_lookup_returns_bound_handler_witness :
    ("stats.user.entity", Handler.stats_user_entity_get_entity_stats) ∈ functions ∧
    get_query_handler "stats.user.entity" =
      Except.ok Handler.stats_user_entity_get_entity_stats :=
  ⟨by decide,
   (c1_lookup_returns_bound_handler "stats.user.entity"
     Handler.stats_user_entity_get_entity_stats (by decide)).1⟩

/-- Claim C2: for every identifier that is not a key of the registry dict — the empty
string included — `get_query_handler` fails with the KeyError carrying that very
identifier (exact matching only), and a dispatch of that identifier reports
`UnknownQuery` while calling no handler at all (its call trace is empty), whatever the
handlers would do. -/
theorem c2_unknown_query_rejected (q : String) (hq : q ∉ functions.map Prod.fst) :
    get_query_handler q = Except.error q ∧
    ∀ (P E R : Type) (run : Handler → P → Except E R) (p : P),
      invokeTrace run q p = (Except.error (DispatchError.unknownQuery q), []) := by
  have he := get_query_handler_of_not_mem q hq
  exact ⟨he, fun P E R run p => by simp [invokeTrace, he]⟩

/-- Claim C2 witness: the empty string is unregistered, is rejected with an error
carrying the empty string, and its dispatch calls no handler. -/
theorem c2_unknown_query_rejected_witness :
    "" ∉ functions.map Prod.fst ∧
    get_query_handler "" = Except.error "" ∧
    invokeTrace (fun (_ : Handler) (_ : Nat) => (Except.ok 0 : Except Nat Nat)) "" 0 =
      (Except.error (DispatchError.unknownQuery ""), []) :=
  ⟨by decide, (c2_unknown_query_rejected "" (by decide)).1,
   (c2_unknown_query_rejected "" (by decide)).2 Nat Nat Nat
     (fun _ _ => Except.ok 0) 0⟩

/-- Claim C3 counterexample: dict-literal construction does not fail on a repeated
identifier — the later binding silently overwrites the earlier, distinct handler, which
is exactly what the claim says never happens. -/
theorem c3_duplicate_key_silently_overwrites :
    buildDict [("stats.user.entity", Handler.stats_user_entity_get_entity_stats),
               ("stats.user.entity", Handler.similarity_artist_main)] =
      [("stats.user.entity", Handler.similarity_artist_main)] ∧
    Handler.stats_user_entity_get_entity_stats ≠ Handler.similarity_artist_main := by
  decide

/-- Claim C3 amended: registering two handlers under the same identifier does not fail —
under Python dict-literal semantics the later binding silently overwrites the earlier
one in place; the actual registry literal, however, writes pairwise-distinct
identifiers, so its construction performs no overwrite and yields exactly the written
pairs. -/
theorem c3_construction_overwrite_semantics :
    (∀ (k : String) (v₁ v₂ : Handler), buildDict [(k, v₁), (k, v₂)] = [(k, v₂)]) ∧
    (functionsList.map Prod.fst).Nodup ∧ functions = functionsList := by
  refine ⟨fun k v₁ v₂ => ?_, by decide, functions_eq_literal⟩
  simp [buildDict, dictInsert]

/-- Claim C4: when the resolved handler itself fails, the dispatch reports
`HandlerExecutionError` carrying the handler's original failure value unmodified, and
that error kind is distinct from `UnknownQuery`. -/
theorem c4_handler_error_propagates :
    (∀ (P E R : Type) (run : Handler → P → Except E R) (q : String) (p : P)
       (h : Handler) (e : E),
      get_query_handler q = Except.ok h → run h p = Except.error e →
      invoke run q p = Except.error (DispatchError.handlerExecutionError q e)) ∧
    (∀ (E : Type) (i j : String) (e : E),
      DispatchError.unknownQuery i ≠ DispatchError.handlerExecutionError j e) := by
  constructor
  · intro P E R run q p h e hq hr
    simp [invoke, invokeTrace, hq, hr]
  · intro E i j e hne
    exact DispatchError.noConfusion hne

/-- Claim C4 witness: a handler registered under `similarity.artist` failing with cause 7
surfaces as `HandlerExecutionError` preserving 7. -/
theorem c4_handler_error_propagates_witness :
    get_query_handler "similarity.artist" = Except.ok Handler.similarity_artist_main ∧
    invoke (fun (_ : Handler) (_ : Nat) => (Except.error 7 : Except Nat Nat))
        "similarity.artist" 0 =
      Except.error (DispatchError.handlerExecutionError "similarity.artist" 7) :=
  ⟨by decide,
   c4_handler_error_propagates.1 Nat Nat Nat (fun _ _ => Except.error 7)
     "similarity.artist" 0 Handler.similarity_artist_main 7 (by decide) rfl⟩

/-- Claim C5: for every registered identifier and every parameter payload, dispatch
calls exactly the handler bound to that identifier and no other — the call trace is
precisely that one handler. -/
theorem c5_invoke_calls_exactly_bound_handler (P E R : Type)
    (run : Handler → P → Except E R) (q : String) (h : Handler) (p : P)
    (hm : (q, h) ∈ functions) : (invokeTrace run q p).2 = [h] := by
  have hq := get_query_handler_of_mem q h hm
  cases hr : run h p <;> simp [invokeTrace, hq, hr]

/-- Claim C5 witness: dispatching `releases.fresh` calls exactly the fresh-releases
handler. -/
theorem c5_invoke_calls_exactly_bound_handler_witness :
    ("releases.fresh", Handler.fresh_releases_fresh_releases_main) ∈ functions ∧
    (invokeTrace (fun (_ : Handler) (_ : Nat) => (Except.ok 0 : Except Nat Nat))
        "releases.fresh" 0).2 = [Handler.fresh_releases_fresh_releases_main] :=
  ⟨by decide,
   c5_invoke_calls_exactly_bound_handler Nat Nat Nat (fun _ _ => Except.ok 0)
     "releases.fresh" Handler.fresh_releases_fresh_releases_main 0 (by decide)⟩

/-- Claim C6: every identifier of the registry maps to exactly one handler (its keys are
pairwise distinct), and no operation of the component writes the registry: both lookup
and dispatch return the registry value they were given. -/
theorem c6_registry_immutable :
    (functions.map Prod.fst).Nodup ∧
    (∀ (reg : Registry) (q : String), (get_query_handler_st reg q).2 = reg) ∧
    (∀ (P E R : Type) (reg : Registry) (run : Handler → P → Except E R)
       (q : String) (p : P), (invokeSt reg run q p).2 = reg) :=
  ⟨functions_keys_nodup, fun _ _ => rfl,
   fun P E R reg run q p => invokeSt_registry_unchanged reg run q p⟩

/-- Claim C7: lookup is stable and idempotent — a lookup leaves the registry unchanged,
and a repeated lookup of the same identifier on the registry state left behind returns
the same handler result as the first. -/
theorem c7_lookup_stable_idempotent (reg : Registry) (q : String) :
    (get_query_handler_st reg q).2 = reg ∧
    (get_query_handler_st ((get_query_handler_st reg q).2) q).1 =
      (get_query_handler_st reg q).1 :=
  ⟨rfl, rfl⟩

/-- Claim C8: every registered identifier is a non-empty dot-separated lowercase string
(segments of lowercase letters and underscores), its first segment is one of the six
subsystem prefixes, and the identifiers are pairwise distinct, case-sensitively. -/
theorem c8_identifier_namespace :
    functions.all
        (fun p => dotSeparatedLower p.1 && subsystemPrefixes.contains (firstSeg p.1)) =
      true ∧
    (functions.map Prod.fst).Nodup :=
  ⟨by decide, functions_keys_nodup⟩

/-- Claim C9: resolution is non-interfering and deterministic — the set of handlers a
dispatch calls depends only on its own identifier and the fixed registry, not on the
parameter payload or on how any handler behaves; and a dispatch performed on the
registry state left behind by any other dispatch resolves exactly as it would have on
the original registry. -/
theorem c9_resolution_noninterference :
    (∀ (P E R Q F S : Type) (run₁ : Handler → P → Except E R)
       (run₂ : Handler → Q → Except F S) (q : String) (p₁ : P) (p₂ : Q),
      (invokeTrace run₁ q p₁).2 = (invokeTrace run₂ q p₂).2) ∧
    (∀ (P E R Q F S : Type) (reg : Registry) (run : Handler → P → Except E R)
       (run' : Handler → Q → Except F S) (q' : String) (p' : Q) (q : String) (p : P),
      (invokeSt ((invokeSt reg run' q' p').2) run q p).1 = (invokeSt reg run q p).1) := by
  constructor
  · intro P E R Q F S run₁ run₂ q p₁ p₂
    cases hq : get_query_handler q with
    | error i => simp [invokeTrace, hq]
    | ok h =>
      cases hr₁ : run₁ h p₁ <;> cases hr₂ : run₂ h p₂ <;>
        simp [invokeTrace, hq, hr₁, hr₂]
  · intro P E R Q F S reg run run' q' p' q p
    rw [invokeSt_registry_unchanged]

/-- Claim C10 counterexample: the `functions` dict literal writes 33 keys, not 32. -/
theorem c10_key_count_is_33 :
    functionsList.length = 33 ∧ functionsList.length ≠ 32 ∧ functions.length = 33 := by
  decide

/-- Claim C10 amended: the set of identifiers on which `get_query_handler` succeeds is
exactly the 33 keys written in the `functions` dict literal, each returning precisely
the handler written beside it, and on every other string it fails with an error
carrying the offending query string. -/
theorem c10_get_query_handler_complete :
    functionsList.length = 33 ∧
    (∀ (q : String) (h : Handler),
      get_query_handler q = Except.ok h ↔ (q, h) ∈ functionsList) ∧
    (∀ q : String, q ∉ functionsList.map Prod.fst → get_query_handler q = Except.error q) := by
  refine ⟨by decide, fun q h => ⟨fun hok => ?_, fun hm => ?_⟩, fun q hq => ?_⟩
  · have hl : lookupKey functions q = some h := by
      by_cases hc : lookupKey functions q = none
      · simp [get_query_handler, hc] at hok
      · rcases Option.ne_none_iff_exists.mp hc with ⟨h', hl'⟩
        have : get_query_handler q = Except.ok h' := by
          simp [get_query_handler, hl'.symm]
        rw [this] at hok
        cases hok
        exact hl'.symm
    exact functions_eq_literal ▸ lookupKey_mem functions q h hl
  · exact get_query_handler_of_mem q h (functions_eq_literal ▸ hm)
  · exact get_query_handler_of_not_mem q (by rw [functions_eq_literal]; exact hq)

/-- Claim C10 witness: a string outside the key set fails with an error carrying that
very string. -/
theorem c10_get_query_handler_complete_witness :
    "no.such.query" ∉ functionsList.map Prod.fst ∧
    get_query_handler "no.such.query" = Except.error "no.such.query" :=
  ⟨by decide, c10_get_query_handler_complete.2.2 "no.such.query" (by decide)⟩

end QueryMap
